import Mathlib

/-!
Verification development for src/data_stream_processor.js, a streaming data
pipeline: DataPoint validity, filter/transform/aggregation stages, z-score
anomaly detection, moving-average trend analysis, event bubbling, and the
running-flag gate on push.

Modelling conventions.  A JavaScript number is modelled by `JSNum`: NaN, the
two infinities, or a finite value represented exactly by a rational (the
claims under study never depend on binary floating-point rounding, only on
exact arithmetic, NaN/Infinity propagation and decimal toFixed rounding).
Exceptions thrown by user-supplied predicates and transformers are modelled
with `Except JSError`; the try/catch blocks of the source become matches on
that result.  Event emission is modelled by returning the ordered list of
events an operation emits; the pipeline's event re-publication (the four
subscriptions installed by addProcessor) is `bubbleEvent`.  Wall-clock
timestamps and the free-form metadata object are provenance never read by any
stage logic and are left out of the model.
-/

namespace StreamProc

/-- A JavaScript number as it flows through this program: NaN, the two
infinities, or a finite value, represented exactly by a rational. -/
inductive JSNum where
  | nan
  | posInf
  | negInf
  | fin (q : ℚ)
  deriving DecidableEq

/-- JS unary minus on numbers. -/
def jsNeg : JSNum → JSNum
  | .nan => .nan
  | .posInf => .negInf
  | .negInf => .posInf
  | .fin q => .fin (-q)

/-- JS addition: NaN propagates, opposite infinities give NaN. -/
def jsAdd : JSNum → JSNum → JSNum
  | .nan, _ => .nan
  | _, .nan => .nan
  | .posInf, .negInf => .nan
  | .negInf, .posInf => .nan
  | .posInf, _ => .posInf
  | _, .posInf => .posInf
  | .negInf, _ => .negInf
  | _, .negInf => .negInf
  | .fin a, .fin b => .fin (a + b)

/-- JS subtraction, as addition of the negation. -/
def jsSub (a b : JSNum) : JSNum := jsAdd a (jsNeg b)

/-- JS multiplication: NaN propagates, zero times an infinity is NaN. -/
def jsMul : JSNum → JSNum → JSNum
  | .nan, _ => .nan
  | _, .nan => .nan
  | .posInf, .posInf => .posInf
  | .posInf, .negInf => .negInf
  | .negInf, .posInf => .negInf
  | .negInf, .negInf => .posInf
  | .posInf, .fin q => if q = 0 then .nan else if 0 < q then .posInf else .negInf
  | .negInf, .fin q => if q = 0 then .nan else if 0 < q then .negInf else .posInf
  | .fin q, .posInf => if q = 0 then .nan else if 0 < q then .posInf else .negInf
  | .fin q, .negInf => if q = 0 then .nan else if 0 < q then .negInf else .posInf
  | .fin a, .fin b => .fin (a * b)

/-- JS division: NaN propagates, infinity over infinity is NaN, a nonzero
finite value over zero is a signed infinity, zero over zero is NaN, a finite
value over an infinity is zero (the sign of zero is not tracked). -/
def jsDiv : JSNum → JSNum → JSNum
  | .nan, _ => .nan
  | _, .nan => .nan
  | .posInf, .posInf => .nan
  | .posInf, .negInf => .nan
  | .negInf, .posInf => .nan
  | .negInf, .negInf => .nan
  | .posInf, .fin q => if q < 0 then .negInf else .posInf
  | .negInf, .fin q => if q < 0 then .posInf else .negInf
  | .fin _, .posInf => .fin 0
  | .fin _, .negInf => .fin 0
  | .fin a, .fin b =>
      if b = 0 then (if a = 0 then .nan else if 0 < a then .posInf else .negInf)
      else .fin (a / b)

/-- Math.abs. -/
def jsAbs : JSNum → JSNum
  | .nan => .nan
  | .posInf => .posInf
  | .negInf => .posInf
  | .fin q => .fin |q|

/-- The JS strict comparison a < b: every comparison against NaN is false. -/
def jsLt : JSNum → JSNum → Bool
  | .nan, _ => false
  | _, .nan => false
  | .posInf, _ => false
  | .negInf, .negInf => false
  | .negInf, _ => true
  | .fin _, .posInf => true
  | .fin _, .negInf => false
  | .fin a, .fin b => decide (a < b)

/-- The JS comparison a > b. -/
def jsGt (a b : JSNum) : Bool := jsLt b a

/-- Math.min of two numbers: NaN contaminates. -/
def jsMin2 : JSNum → JSNum → JSNum
  | .nan, _ => .nan
  | _, .nan => .nan
  | a, b => if jsLt a b then a else b

/-- Math.max of two numbers: NaN contaminates. -/
def jsMax2 : JSNum → JSNum → JSNum
  | .nan, _ => .nan
  | _, .nan => .nan
  | a, b => if jsLt a b then b else a

/-- Rounding to two decimals as Number.prototype.toFixed(2) does: the integer
n with n / 100 as close as possible to the argument, ties toward the larger
n, then divided back. -/
def round2 (q : ℚ) : ℚ := ((⌊100 * q + 1 / 2⌋ : ℤ) : ℚ) / 100

/-- The numeric value that parseFloat recovers from the string produced by
toFixed(2): the two-decimal rounding for finite numbers, and NaN or the
infinities unchanged (their toFixed strings parse back to themselves). -/
def jsToFixed2 : JSNum → JSNum
  | .nan => .nan
  | .posInf => .posInf
  | .negInf => .negInf
  | .fin q => .fin (round2 q)

/-- Two-digit zero-padded rendering of a remainder below 100. -/
def pad2 (r : ℕ) : String := if r < 10 then "0" ++ toString r else toString r

/-- The string produced by toFixed(2): sign, integer part, a dot, and exactly
two decimals; NaN and the infinities render as their JS names. -/
def jsToFixed2Str : JSNum → String
  | .nan => "NaN"
  | .posInf => "Infinity"
  | .negInf => "-Infinity"
  | .fin q =>
      let n : ℤ := ⌊100 * q + 1 / 2⌋
      (if n < 0 then "-" else "") ++ toString (n.natAbs / 100) ++ "." ++ pad2 (n.natAbs % 100)

/-- A value produced by Math.sqrt, kept symbolic as its radicand, because the
square root of a rational is in general irrational: Math.sqrt v is zero
exactly when v is zero, and NaN when v is negative or NaN.  No claim inspects
the numeric value of a stored standard deviation, only whether it is zero and
how it compares inside the z-score, both of which are decided from the
radicand. -/
structure JSSqrt where
  radicand : JSNum
  deriving DecidableEq

/-- Math.sqrt(radicand) === 0: true exactly when the radicand is the finite
number zero (a negative or NaN radicand gives NaN, which is not strictly
equal to 0; an infinite radicand gives Infinity). -/
def JSSqrt.isStrictZero (s : JSSqrt) : Bool :=
  match s.radicand with
  | .fin q => decide (q = 0)
  | _ => false

/-- A JS value that may be a number or a string, used for stats fields whose
shape is part of a claim (anomalyRate is a formatted string in the source). -/
inductive JSVal where
  | num (n : JSNum)
  | str (s : String)
  deriving DecidableEq

/-- A thrown JS error: its constructor name and message. -/
structure JSError where
  name : String
  message : String
  deriving DecidableEq

/-- The TypeError thrown by reading the value property of null. -/
def nullValueError : JSError :=
  ⟨"TypeError", "Cannot read properties of null"⟩

/-- DataPoint from the source.  The timestamp and metadata constructor fields
are provenance that no stage logic ever reads and are omitted from the model;
id is the generated correlation string, carried opaquely.  The model restricts
the value slot to JS numbers (including NaN and the infinities): every claim
concerns numeric observations. -/
structure DataPoint where
  value : JSNum
  id : String
  deriving DecidableEq

/-- DataPoint.isValid: typeof this.value === number holds for every JSNum, so
the source check reduces to !isNaN(this.value), which fails only for NaN.
Note the source does not test finiteness: the infinities pass. -/
def DataPoint.isValid (d : DataPoint) : Bool :=
  match d.value with
  | .nan => false
  | _ => true

/-- Modelled from the spec: validity as the specification words it, the value
is a finite, non-NaN number.  Stated only for comparison with
DataPoint.isValid, which the source defines with isNaN alone. -/
def finiteNonNaN : JSNum → Bool
  | .fin _ => true
  | _ => false

/-- The statistics snapshot computed by AggregationProcessor over its window:
count, sum, mean, min, max and the (symbolic) standard deviation.  The
wall-clock timestamp field of the source snapshot is omitted. -/
structure AggRecord where
  count : ℕ
  sum : JSNum
  mean : JSNum
  min : JSNum
  max : JSNum
  stdDev : JSSqrt
  deriving DecidableEq

/-- The history statistics AnomalyDetector computes: mean, (symbolic)
standard deviation, and count. -/
structure HistoryStats where
  mean : JSNum
  stdDev : JSSqrt
  count : ℕ
  deriving DecidableEq

/-- The trend snapshot TrendAnalyzer publishes; diffPercent is the toFixed(2)
string with a percent sign appended, exactly as the source builds it.  The
wall-clock timestamp field is omitted. -/
structure TrendRecord where
  sma : JSNum
  latest : JSNum
  diff : JSNum
  diffPercent : String
  direction : String
  deriving DecidableEq

/-- A value flowing between stages: a DataPoint, or the statistics record an
AggregationProcessor returns in place of the observation. -/
inductive Item where
  | point (dp : DataPoint)
  | agg (r : AggRecord)
  deriving DecidableEq

/-- The payload of an emitted event. -/
inductive Payload where
  | item (x : Option Item)
  | aggRec (r : AggRecord)
  | anomalyRec (dp : Item) (stats : HistoryStats)
  | trendRec (t : TrendRecord)
  | errRec (e : JSError) (dp : Option Item) (processor : String)
  | empty
  deriving DecidableEq

/-- An emitted event: its kind string and its payload. -/
structure Event where
  kind : String
  payload : Payload
  deriving DecidableEq

/-- Reading dataPoint.value.  On null the read throws a TypeError.  On an
aggregation record the field is absent, so the read yields undefined, which
behaves as NaN in every numeric context it reaches in this program. -/
def itemValue : Option Item → Except JSError JSNum
  | none => .error nullValueError
  | some (.point d) => .ok d.value
  | some (.agg _) => .ok .nan

/-- The value slot of a non-null item, used where the source has already
null-checked: a DataPoint value, or NaN for the undefined read off an
aggregation record. -/
def Item.valueJS : Item → JSNum
  | .point d => d.value
  | .agg _ => .nan

/-- The per-stage statistics snapshot getStats returns: the base name,
processed and errors counters, plus the stage-specific extras present on the
concrete stage (absent fields are none). -/
structure StageStats where
  name : String
  processed : ℕ
  errors : ℕ
  filtered : Option ℕ
  anomalies : Option ℕ
  anomalyRate : Option JSVal
  deriving DecidableEq

/-- FilterProcessor: a name, the user predicate (which may throw, hence the
Except result), and the counters. -/
structure FilterProcessor where
  name : String
  predicate : Option Item → Except JSError Bool
  processedCount : ℕ
  errorCount : ℕ
  filteredCount : ℕ

/-- FilterProcessor.process: count the attempt, then test the predicate; on
true emit data and pass the item through, on false count and emit filtered
and drop, and on a thrown error run handleError (count it, emit the error
event) and drop. -/
def FilterProcessor.process (st : FilterProcessor) (dataPoint : Option Item) :
    Option Item × FilterProcessor × List Event :=
  let st1 := { st with processedCount := st.processedCount + 1 }
  match st.predicate dataPoint with
  | .ok true => (dataPoint, st1, [⟨"data", .item dataPoint⟩])
  | .ok false =>
      (none, { st1 with filteredCount := st1.filteredCount + 1 },
       [⟨"filtered", .item dataPoint⟩])
  | .error e =>
      (none, { st1 with errorCount := st1.errorCount + 1 },
       [⟨"error", .errRec e dataPoint st.name⟩])

/-- FilterProcessor.getStats: the base snapshot plus the filtered count. -/
def FilterProcessor.getStats (st : FilterProcessor) : StageStats :=
  ⟨st.name, st.processedCount, st.errorCount, some st.filteredCount, none, none⟩

/-- TransformProcessor: a name, the user transformer (which may throw), and
the counters. -/
structure TransformProcessor where
  name : String
  transformer : Option Item → Except JSError (Option Item)
  processedCount : ℕ
  errorCount : ℕ

/-- TransformProcessor.process: count the attempt, apply the transformer,
emit data with the result and return it; on a thrown error run handleError
and drop. -/
def TransformProcessor.process (st : TransformProcessor) (dataPoint : Option Item) :
    Option Item × TransformProcessor × List Event :=
  let st1 := { st with processedCount := st.processedCount + 1 }
  match st.transformer dataPoint with
  | .ok t => (t, st1, [⟨"data", .item t⟩])
  | .error e =>
      (none, { st1 with errorCount := st1.errorCount + 1 },
       [⟨"error", .errRec e dataPoint st.name⟩])

/-- TransformProcessor.getStats: the base snapshot only. -/
def TransformProcessor.getStats (st : TransformProcessor) : StageStats :=
  ⟨st.name, st.processedCount, st.errorCount, none, none, none⟩

/-- AggregationProcessor: name, window size, the FIFO window of raw items
(raw, so a null pushed by a direct process(null) call really sits in the
window, as in the source), and the counters. -/
structure AggregationProcessor where
  name : String
  windowSize : ℕ
  window : List (Option Item)
  processedCount : ℕ
  errorCount : ℕ
  deriving DecidableEq

/-- The window after one process call: the item is pushed, then the oldest
entry is shifted off when the capacity is exceeded. -/
def nextWindow (st : AggregationProcessor) (x : Option Item) : List (Option Item) :=
  let w := st.window ++ [x]
  if st.windowSize < w.length then w.tail else w

/-- The map from the window to its values, throwing at the first null entry
exactly as window.map(dp then dp.value) does. -/
def mapValues : List (Option Item) → Except JSError (List JSNum)
  | [] => .ok []
  | x :: rest => do
      let v ← itemValue x
      let vs ← mapValues rest
      .ok (v :: vs)

/-- AggregationProcessor calculateStats over the current window: population
mean and variance (divide by count), min and max via Math.min and Math.max,
and the standard deviation kept symbolic as its radicand. -/
def calculateStats (w : List (Option Item)) : Except JSError AggRecord := do
  let values ← mapValues w
  let sum := values.foldl jsAdd (.fin 0)
  let mean := jsDiv sum (.fin (values.length : ℚ))
  let variance :=
    jsDiv (values.foldl (fun acc v => jsAdd acc (jsMul (jsSub v mean) (jsSub v mean)))
            (.fin 0))
      (.fin (values.length : ℚ))
  .ok { count := values.length, sum := sum, mean := mean,
        min := values.foldl jsMin2 .posInf,
        max := values.foldl jsMax2 .negInf,
        stdDev := ⟨variance⟩ }

/-- AggregationProcessor.process: count the attempt, push into the window and
evict, then compute the statistics; on success emit aggregation and return
the snapshot in place of the observation; if the computation throws (a null
in the window) the window mutation is kept, handleError runs and the item is
dropped. -/
def AggregationProcessor.process (st : AggregationProcessor) (dataPoint : Option Item) :
    Option Item × AggregationProcessor × List Event :=
  let st1 := { st with processedCount := st.processedCount + 1 }
  let w := nextWindow st dataPoint
  match calculateStats w with
  | .ok r => (some (.agg r), { st1 with window := w }, [⟨"aggregation", .aggRec r⟩])
  | .error e =>
      (none, { st1 with window := w, errorCount := st1.errorCount + 1 },
       [⟨"error", .errRec e dataPoint st.name⟩])

/-- AggregationProcessor.getStats: the base snapshot only. -/
def AggregationProcessor.getStats (st : AggregationProcessor) : StageStats :=
  ⟨st.name, st.processedCount, st.errorCount, none, none, none⟩

/-- AnomalyDetector: name, the z-score threshold, the FIFO history of raw
values with its capacity, and the counters. -/
structure AnomalyDetector where
  name : String
  threshold : ℚ
  history : List JSNum
  historySize : ℕ
  anomalyCount : ℕ
  processedCount : ℕ
  errorCount : ℕ
  deriving DecidableEq

/-- The mean of a history list, by the source fold: reduce with + from 0,
divided by the length (an empty history gives 0 / 0, NaN). -/
def historyMean (h : List JSNum) : JSNum :=
  jsDiv (h.foldl jsAdd (.fin 0)) (.fin (h.length : ℚ))

/-- The population variance of a history list: reduce of the squared
deviations from the mean, divided by the length. -/
def historyVariance (h : List JSNum) : JSNum :=
  jsDiv
    (h.foldl
      (fun acc v =>
        jsAdd acc (jsMul (jsSub v (historyMean h)) (jsSub v (historyMean h))))
      (.fin 0))
    (.fin (h.length : ℚ))

/-- AnomalyDetector getHistoryStats: mean, standard deviation (symbolic) and
count of the current history. -/
def getHistoryStats (h : List JSNum) : HistoryStats :=
  ⟨historyMean h, ⟨historyVariance h⟩, h.length⟩

/-- Decides the source comparison zScore > threshold, where zScore is
Math.abs(value - mean) / Math.sqrt(variance), without computing the
irrational square root; zScoreGt_iff below proves the finite positive case
equal to the real-number comparison.  The JS comparison semantics fix the
remaining cases: any NaN operand makes the comparison false; a variance of
zero makes the z-score Infinity when the value differs from the mean (true
against every threshold) and NaN when it equals it; an infinite value over a
finite deviation gives an infinite z-score; a finite deviation over an
infinite standard deviation gives a zero z-score; a non-finite mean forces a
NaN or infinity-over-infinity z-score, which compares false. -/
def zScoreGt (value mean : JSNum) (s : JSSqrt) (threshold : ℚ) : Bool :=
  match value, mean, s.radicand with
  | .fin x, .fin m, .fin v =>
      if v < 0 then false
      else if v = 0 then decide (x ≠ m)
      else decide (threshold < 0) || decide ((x - m) ^ 2 > threshold ^ 2 * v)
  | .posInf, .fin _, .fin v => decide (0 ≤ v)
  | .negInf, .fin _, .fin v => decide (0 ≤ v)
  | .fin _, .fin _, .posInf => decide (threshold < 0)
  | _, _, _ => false

/-- AnomalyDetector detectAnomaly, on the history as already updated by
process: no anomaly when the standard deviation is strictly zero, otherwise
the z-score of the value against the history statistics is compared with the
threshold. -/
def detectAnomaly (threshold : ℚ) (h : List JSNum) (value : JSNum) : Bool :=
  let stats := getHistoryStats h
  if stats.stdDev.isStrictZero then false
  else zScoreGt value stats.mean stats.stdDev threshold

/-- AnomalyDetector.process: count the attempt; reading value off a null
input throws (caught by handleError).  Otherwise the value is pushed into
the history first, the oldest entry shifted off beyond capacity, and only
then, once the history holds at least ten values, the anomaly test runs over
the updated history; an anomaly bumps the counter and emits the anomaly
event with the history statistics.  The data event is always emitted and the
original item returned: the stage is a tap, never a filter. -/
def AnomalyDetector.process (st : AnomalyDetector) (dataPoint : Option Item) :
    Option Item × AnomalyDetector × List Event :=
  let st1 := { st with processedCount := st.processedCount + 1 }
  match dataPoint with
  | none =>
      (none, { st1 with errorCount := st1.errorCount + 1 },
       [⟨"error", .errRec nullValueError none st.name⟩])
  | some it =>
      let h0 := st.history ++ [it.valueJS]
      let h := if st.historySize < h0.length then h0.tail else h0
      if 10 ≤ h.length then
        if detectAnomaly st.threshold h it.valueJS then
          (some it,
           { st1 with history := h, anomalyCount := st1.anomalyCount + 1 },
           [⟨"anomaly", .anomalyRec it (getHistoryStats h)⟩,
            ⟨"data", .item (some it)⟩])
        else (some it, { st1 with history := h }, [⟨"data", .item (some it)⟩])
      else (some it, { st1 with history := h }, [⟨"data", .item (some it)⟩])

/-- AnomalyDetector.getStats: the base snapshot plus the anomaly count and
the anomalyRate string: the percentage ratio formatted with toFixed(2) and a
percent sign appended, exactly as the source concatenates it. -/
def AnomalyDetector.getStats (st : AnomalyDetector) : StageStats :=
  ⟨st.name, st.processedCount, st.errorCount, none, some st.anomalyCount,
   some (.str (jsToFixed2Str
       (jsMul (jsDiv (.fin (st.anomalyCount : ℚ)) (.fin (st.processedCount : ℚ)))
         (.fin 100)) ++ "%"))⟩

/-- TrendAnalyzer: name, window size, the FIFO buffer of raw values, and the
counters. -/
structure TrendAnalyzer where
  name : String
  windowSize : ℕ
  values : List JSNum
  processedCount : ℕ
  errorCount : ℕ
  deriving DecidableEq

/-- TrendAnalyzer analyzeTrend over the current buffer: the simple moving
average, the latest value, their difference, and the percent difference
pushed through toFixed(2); the direction comparison reads the percent back
with parseFloat, so it sees the two-decimal rounding, while the published
record keeps the rounded string with a percent sign. -/
def analyzeTrend (vals : List JSNum) : TrendRecord :=
  let sma := jsDiv (vals.foldl jsAdd (.fin 0)) (.fin (vals.length : ℚ))
  let latest := vals.getLastD .nan
  let diff := jsSub latest sma
  let direction :=
    if jsGt (jsAbs (jsToFixed2 (jsMul (jsDiv diff sma) (.fin 100)))) (.fin 5) then
      (if jsGt diff (.fin 0) then "upward" else "downward")
    else "stable"
  { sma := sma, latest := latest, diff := diff,
    diffPercent := jsToFixed2Str (jsMul (jsDiv diff sma) (.fin 100)) ++ "%",
    direction := direction }

/-- The trend buffer after one process call: the value is pushed, then the
oldest entry is shifted off when the capacity is exceeded. -/
def nextValues (st : TrendAnalyzer) (v : JSNum) : List JSNum :=
  let v0 := st.values ++ [v]
  if st.windowSize < v0.length then v0.tail else v0

/-- TrendAnalyzer.process: count the attempt; reading value off a null input
throws (caught by handleError).  Otherwise push the value, evict beyond
capacity, and once the buffer holds at least five values emit the trend
record; the data event is always emitted and the original item returned. -/
def TrendAnalyzer.process (st : TrendAnalyzer) (dataPoint : Option Item) :
    Option Item × TrendAnalyzer × List Event :=
  let st1 := { st with processedCount := st.processedCount + 1 }
  match dataPoint with
  | none =>
      (none, { st1 with errorCount := st1.errorCount + 1 },
       [⟨"error", .errRec nullValueError none st.name⟩])
  | some it =>
      let v := nextValues st it.valueJS
      if 5 ≤ v.length then
        (some it, { st1 with values := v },
         [⟨"trend", .trendRec (analyzeTrend v)⟩, ⟨"data", .item (some it)⟩])
      else (some it, { st1 with values := v }, [⟨"data", .item (some it)⟩])

/-- TrendAnalyzer.getStats: the base snapshot only. -/
def TrendAnalyzer.getStats (st : TrendAnalyzer) : StageStats :=
  ⟨st.name, st.processedCount, st.errorCount, none, none, none⟩

/-- One stage of the pipeline: any of the five StreamProcessor subclasses. -/
inductive Stage where
  | filter (st : FilterProcessor)
  | transform (st : TransformProcessor)
  | aggregation (st : AggregationProcessor)
  | anomaly (st : AnomalyDetector)
  | trend (st : TrendAnalyzer)

/-- Dispatch of process over the stage variants. -/
def Stage.process : Stage → Option Item → Option Item × Stage × List Event
  | .filter st, x => let (r, s, e) := st.process x; (r, .filter s, e)
  | .transform st, x => let (r, s, e) := st.process x; (r, .transform s, e)
  | .aggregation st, x => let (r, s, e) := st.process x; (r, .aggregation s, e)
  | .anomaly st, x => let (r, s, e) := st.process x; (r, .anomaly s, e)
  | .trend st, x => let (r, s, e) := st.process x; (r, .trend s, e)

/-- Dispatch of getStats over the stage variants. -/
def Stage.getStats : Stage → StageStats
  | .filter st => st.getStats
  | .transform st => st.getStats
  | .aggregation st => st.getStats
  | .anomaly st => st.getStats
  | .trend st => st.getStats

/-- StreamProcessorError: message and code, as raised by push on a stopped
pipeline. -/
structure StreamProcessorError where
  message : String
  code : String
  deriving DecidableEq

/-- The error push raises when the pipeline is not running. -/
def notRunningError : StreamProcessorError :=
  ⟨"Pipeline is not running", "NOT_RUNNING"⟩

/-- DataStreamPipeline: the ordered stage list and the running flag. -/
structure DataStreamPipeline where
  processors : List Stage
  isRunning : Bool

/-- Event bubbling as installed by addProcessor: the four subscriptions
registered on each added processor.  The error subscription re-emits under
the kind processorError; anomaly, trend and aggregation keep their kind;
every payload is passed through unchanged; no other stage event reaches the
pipeline emitter. -/
def bubbleEvent (e : Event) : Option Event :=
  if e.kind = "error" then some ⟨"processorError", e.payload⟩
  else if e.kind = "anomaly" then some e
  else if e.kind = "trend" then some e
  else if e.kind = "aggregation" then some e
  else none

/-- DataStreamPipeline.addProcessor appends the stage; the four event
subscriptions it installs are modelled by bubbleEvent inside push. -/
def DataStreamPipeline.addProcessor (p : DataStreamPipeline) (s : Stage) :
    DataStreamPipeline :=
  { p with processors := p.processors ++ [s] }

/-- The stage loop of push: each processor runs in registration order, and as
soon as the current value is null the loop breaks, leaving the remaining
stages untouched and contributing no further events. -/
def runChain : Option Item → List Stage → Option Item × List Stage × List Event
  | cur, [] => (cur, [], [])
  | none, ss => (none, ss, [])
  | some x, s :: rest =>
      let (r, s2, evs) := s.process (some x)
      let (rf, rest2, evs2) := runChain r rest
      (rf, s2 :: rest2, evs ++ evs2)

/-- The outcome of one successful push: the final value, the updated
pipeline, the events the stages emitted, and the events the pipeline emitter
published (the bubbled ones followed by the final processed event). -/
structure PushOut where
  result : Option Item
  pipeline : DataStreamPipeline
  stageEvents : List Event
  pipelineEvents : List Event

/-- The running-pipeline body of push: thread the item through the chain,
then publish the processed event with the final value. -/
def pushRun (p : DataStreamPipeline) (x : Option Item) : PushOut :=
  let (r, ss, evs) := runChain x p.processors
  ⟨r, { p with processors := ss }, evs,
   evs.filterMap bubbleEvent ++ [⟨"processed", .item r⟩]⟩

/-- DataStreamPipeline.push: throws the NOT_RUNNING StreamProcessorError when
the pipeline is stopped, otherwise runs the chain. -/
def DataStreamPipeline.push (p : DataStreamPipeline) (x : Option Item) :
    Except StreamProcessorError PushOut :=
  if p.isRunning = false then .error notRunningError else .ok (pushRun p x)

/-- DataStreamPipeline.start: set the running flag, emit the start event. -/
def DataStreamPipeline.start (p : DataStreamPipeline) :
    DataStreamPipeline × List Event :=
  ({ p with isRunning := true }, [⟨"start", .empty⟩])

/-- DataStreamPipeline.stop: clear the running flag, emit the stop event. -/
def DataStreamPipeline.stop (p : DataStreamPipeline) :
    DataStreamPipeline × List Event :=
  ({ p with isRunning := false }, [⟨"stop", .empty⟩])

/-- DataStreamPipeline.getStats: each stage snapshot in pipeline order. -/
def DataStreamPipeline.getStats (p : DataStreamPipeline) : List StageStats :=
  p.processors.map Stage.getStats

/-- Observation helper: the stage-level events produced by one push, empty
when the push fails. -/
def pushStageEvents (p : DataStreamPipeline) (x : Option Item) : List Event :=
  match p.push x with
  | .ok o => o.stageEvents
  | .error _ => []

/-- Observation helper: the pipeline-level events produced by one push, empty
when the push fails. -/
def pushPipelineEvents (p : DataStreamPipeline) (x : Option Item) : List Event :=
  match p.push x with
  | .ok o => o.pipelineEvents
  | .error _ => []

/-! Concrete fixtures used by the witnesses and counterexamples below. -/

/-- The deterministic z-score scenario history after the push: ten tens
followed by the candidate value 100. -/
def histC : List JSNum := List.replicate 10 (JSNum.fin 10) ++ [JSNum.fin 100]

/-- An AnomalyDetector with threshold t whose history already holds ten
identical values 10. -/
def anomalyEx (t : ℚ) : AnomalyDetector :=
  { name := "anomaly-detector", threshold := t,
    history := List.replicate 10 (JSNum.fin 10), historySize := 50,
    anomalyCount := 0, processedCount := 10, errorCount := 0 }

/-- The observation with value 100 pushed in the z-score scenario. -/
def dp100 : DataPoint := ⟨.fin 100, "dp-100"⟩

/-- A TrendAnalyzer whose buffer holds four values 987.49, so that the next
value completes a five-value window averaging 1000. -/
def trendEx6 : TrendAnalyzer :=
  { name := "trend-analyzer", windowSize := 15,
    values := [.fin (98749/100), .fin (98749/100), .fin (98749/100), .fin (98749/100)],
    processedCount := 4, errorCount := 0 }

/-- The observation with value 1050.04 pushed into trendEx6: the raw percent
difference against the moving average 1000 is 5.004, which toFixed(2) rounds
to 5.00. -/
def dpTrend : DataPoint := ⟨.fin (105004/100), "dp-trend"⟩

/-- The trend buffer after pushing dpTrend into trendEx6. -/
def trendVals6 : List JSNum :=
  [.fin (98749/100), .fin (98749/100), .fin (98749/100), .fin (98749/100),
   .fin (105004/100)]

/-- An AnomalyDetector snapshot with one anomaly out of three processed, so
the raw rate is 100 / 3 percent. -/
def anomalyEx7 : AnomalyDetector :=
  { name := "anomaly-detector", threshold := 3, history := [], historySize := 50,
    anomalyCount := 1, processedCount := 3, errorCount := 0 }

/-- The validity predicate wired in main: dp then dp.isValid().  Reading the
isValid member of null throws a TypeError; an aggregation record has no
isValid function, so the call also throws. -/
def validPredicate : Option Item → Except JSError Bool
  | none => .error ⟨"TypeError", "Cannot read properties of null"⟩
  | some (.point d) => .ok d.isValid
  | some (.agg _) => .error ⟨"TypeError", "isValid is not a function"⟩

/-- The validity filter stage from main, freshly constructed. -/
def validFilter : FilterProcessor :=
  { name := "valid-filter", predicate := validPredicate,
    processedCount := 0, errorCount := 0, filteredCount := 0 }

/-- The error thrown by the always-faulting transformer fixture. -/
def boomError : JSError := ⟨"Error", "transform failed"⟩

/-- A TransformProcessor whose function faults on every input. -/
def failTransform : TransformProcessor :=
  { name := "normalize", transformer := fun _ => .error boomError,
    processedCount := 0, errorCount := 0 }

/-- A first sample observation. -/
def obsA : Item := .point ⟨.fin 1, "obs-a"⟩

/-- A second sample observation. -/
def obsB : Item := .point ⟨.fin 2, "obs-b"⟩

/-- The payload of the error event the faulting transform emits on obsA. -/
def plEx4 : Payload := .errRec boomError (some obsA) "normalize"

/-- A filter whose predicate rejects every input without faulting. -/
def rejectFilter : FilterProcessor :=
  { name := "reject-filter", predicate := fun _ => .ok false,
    processedCount := 0, errorCount := 0, filteredCount := 0 }

/-- A fresh AnomalyDetector stage placed after the rejecting filter. -/
def anomalyW : AnomalyDetector :=
  { name := "anomaly-detector", threshold := 3, history := [], historySize := 50,
    anomalyCount := 0, processedCount := 0, errorCount := 0 }

/-- A third sample observation. -/
def obsW : Item := .point ⟨.fin 7, "obs-w"⟩

/-- A fresh AggregationProcessor with the default window size. -/
def aggW : AggregationProcessor :=
  { name := "aggregate", windowSize := 10, window := [],
    processedCount := 0, errorCount := 0 }

/-- A stopped pipeline with no stages. -/
def pipeW : DataStreamPipeline := ⟨[], false⟩

/-! Arithmetic facts about the JS operations on finite numbers, and
evaluation lemmas for the concrete scenarios. -/

@[simp] lemma jsAdd_fin (a b : ℚ) : jsAdd (.fin a) (.fin b) = .fin (a + b) := rfl

@[simp] lemma jsNeg_fin (a : ℚ) : jsNeg (.fin a) = .fin (-a) := rfl

@[simp] lemma jsSub_fin (a b : ℚ) : jsSub (.fin a) (.fin b) = .fin (a - b) := by
  simp [jsSub, sub_eq_add_neg]

@[simp] lemma jsMul_fin (a b : ℚ) : jsMul (.fin a) (.fin b) = .fin (a * b) := rfl

@[simp] lemma jsAbs_fin (a : ℚ) : jsAbs (.fin a) = .fin |a| := rfl

@[simp] lemma jsLt_fin (a b : ℚ) : jsLt (.fin a) (.fin b) = decide (a < b) := rfl

@[simp] lemma jsGt_fin (a b : ℚ) : jsGt (.fin a) (.fin b) = decide (b < a) := rfl

lemma jsDiv_fin (a : ℚ) {b : ℚ} (hb : b ≠ 0) :
    jsDiv (.fin a) (.fin b) = .fin (a / b) := by
  simp [jsDiv, hb]

lemma mean_histC : historyMean histC = .fin (200/11) := by
  simp [historyMean, histC, List.replicate]
  rw [jsDiv_fin _ (by norm_num)]
  norm_num

lemma variance_histC : historyVariance histC = .fin (81000/121) := by
  simp only [historyVariance]
  rw [mean_histC]
  simp [histC, List.replicate]
  rw [jsDiv_fin _ (by norm_num)]
  norm_num

/-- The decidable z-score comparison agrees with the real-number formula when
the variance is a positive rational. -/
lemma zScoreGt_iff (x m v t : ℚ) (hv : 0 < v) :
    zScoreGt (.fin x) (.fin m) ⟨.fin v⟩ t = true ↔
      ((t : ℝ) < |(x : ℝ) - (m : ℝ)| / Real.sqrt (v : ℝ)) := by
  have hvR : (0:ℝ) < (v:ℝ) := by exact_mod_cast hv
  have hs : (0:ℝ) < Real.sqrt (v:ℝ) := Real.sqrt_pos.mpr hvR
  have hs2 : Real.sqrt (v:ℝ) ^ 2 = (v:ℝ) := Real.sq_sqrt hvR.le
  have habs : (0:ℝ) ≤ |(x:ℝ) - (m:ℝ)| := abs_nonneg _
  simp only [zScoreGt, if_neg (not_lt.mpr hv.le), if_neg hv.ne', Bool.or_eq_true,
    decide_eq_true_eq]
  constructor
  · rintro (ht | hgt)
    · exact lt_of_lt_of_le (show (t:ℝ) < 0 by exact_mod_cast ht) (by positivity)
    · rcases lt_or_le t 0 with ht | ht
      · exact lt_of_lt_of_le (show (t:ℝ) < 0 by exact_mod_cast ht) (by positivity)
      · have htR : (0:ℝ) ≤ (t:ℝ) := by exact_mod_cast ht
        rw [lt_div_iff₀ hs]
        have h1 : ((t:ℝ) * Real.sqrt (v:ℝ)) ^ 2 < |(x:ℝ) - (m:ℝ)| ^ 2 := by
          rw [mul_pow, hs2, sq_abs]
          exact_mod_cast hgt
        exact lt_of_pow_lt_pow_left₀ 2 habs h1
  · intro h
    rcases lt_or_le t 0 with ht | ht
    · exact Or.inl ht
    · right
      have htR : (0:ℝ) ≤ (t:ℝ) := by exact_mod_cast ht
      rw [lt_div_iff₀ hs] at h
      have h1 : ((t:ℝ) * Real.sqrt (v:ℝ)) ^ 2 < |(x:ℝ) - (m:ℝ)| ^ 2 :=
        pow_lt_pow_left₀ h (by positivity) (by norm_num)
      rw [mul_pow, hs2, sq_abs] at h1
      exact_mod_cast h1

/-- In the deterministic scenario the anomaly fires exactly when the
threshold is below the square root of ten: the z-score of 100 against the
eleven-value history ten tens and a hundred. -/
lemma detect_histC_iff (t : ℚ) :
    detectAnomaly t histC (.fin 100) = true ↔ (t : ℝ) < Real.sqrt 10 := by
  have h0 : detectAnomaly t histC (.fin 100) =
      zScoreGt (.fin 100) (.fin (200/11)) ⟨.fin (81000/121)⟩ t := by
    simp only [detectAnomaly, getHistoryStats, JSSqrt.isStrictZero,
      mean_histC, variance_histC]
    norm_num
  rw [h0, zScoreGt_iff _ _ _ _ (by norm_num)]
  push_cast
  rw [show |(100:ℝ) - 200/11| = 900/11 by rw [abs_of_pos (by norm_num)]; norm_num]
  rw [show Real.sqrt (81000/121 : ℝ) = (90/11) * Real.sqrt 10 by
        rw [show (81000/121:ℝ) = (90/11)^2 * 10 by norm_num,
          Real.sqrt_mul (by positivity), Real.sqrt_sq (by norm_num)]]
  rw [div_mul_eq_div_div, show (900/11 : ℝ)/(90/11) = 10 by norm_num, Real.div_sqrt]

/-- The shape of one process call on the deterministic scenario: both
branches of the anomaly decision made explicit. -/
lemma anomalyEx_process (t : ℚ) :
    (anomalyEx t).process (some (.point dp100)) =
      if detectAnomaly t histC (.fin 100) then
        (some (.point dp100),
         { name := "anomaly-detector", threshold := t, history := histC,
           historySize := 50, anomalyCount := 1, processedCount := 11,
           errorCount := 0 },
         [⟨"anomaly", .anomalyRec (.point dp100) (getHistoryStats histC)⟩,
          ⟨"data", .item (some (.point dp100))⟩])
      else
        (some (.point dp100),
         { name := "anomaly-detector", threshold := t, history := histC,
           historySize := 50, anomalyCount := 0, processedCount := 11,
           errorCount := 0 },
         [⟨"data", .item (some (.point dp100))⟩]) := by
  by_cases hd : detectAnomaly t histC (.fin 100) <;>
    simp [AnomalyDetector.process, anomalyEx, dp100, Item.valueJS, histC, hd]

/-! The claims. -/

/-- C1, counterexample: an observation whose value is positive Infinity is
accepted by isValid, although the spec notion of validity (finite, non-NaN)
rejects it: isValid tests only isNaN, never finiteness. -/
theorem C1_counterexample :
    DataPoint.isValid ⟨.posInf, "obs-inf"⟩ = true ∧ finiteNonNaN .posInf = false :=
  ⟨rfl, rfl⟩

/-- C1, amended: isValid returns true exactly when the observation value is a
number other than NaN; in particular the infinities count as valid. -/
theorem C1_amended (d : DataPoint) : d.isValid = true ↔ d.value ≠ JSNum.nan := by
  obtain ⟨v, i⟩ := d
  cases v <;> simp [DataPoint.isValid]

/-- C2, counterexample: with the history holding ten values 10 and the
default threshold 3, processing the value 100 flags an anomaly (the counter
becomes 1 and an anomaly event is published): the value joins the history
before detection, so the standard deviation is not zero and the z-score is
the square root of ten, above 3.  This refutes the claim that no threshold
ever flags this observation. -/
theorem C2_counterexample :
    (((anomalyEx 3).process (some (.point dp100))).2.1.anomalyCount = 1) ∧
    ((((anomalyEx 3).process (some (.point dp100))).2.2).map Event.kind =
      ["anomaly", "data"]) := by
  have hd : detectAnomaly 3 histC (.fin 100) = true :=
    (detect_histC_iff 3).mpr (by
      push_cast
      nlinarith [Real.sq_sqrt (show (0:ℝ) ≤ 10 by norm_num), Real.sqrt_nonneg 10])
  rw [anomalyEx_process, if_pos hd]
  exact ⟨rfl, rfl⟩

/-- C2, amended: in the scenario with history ten tens followed by the value
100, the observation is appended to the history before detection, so the
standard deviation is nonzero and the z-score equals the square root of ten:
the anomaly is flagged (counter bumped to one, anomaly event published)
exactly for thresholds below the square root of ten, and not flagged for
larger thresholds; the stdDev-zero guard never applies here. -/
theorem C2_amended (t : ℚ) :
    ((t : ℝ) < Real.sqrt 10 →
      (((anomalyEx t).process (some (.point dp100))).2.1.anomalyCount = 1 ∧
       (((anomalyEx t).process (some (.point dp100))).2.2).map Event.kind =
         ["anomaly", "data"])) ∧
    (Real.sqrt 10 ≤ (t : ℝ) →
      (((anomalyEx t).process (some (.point dp100))).2.1.anomalyCount = 0 ∧
       (((anomalyEx t).process (some (.point dp100))).2.2).map Event.kind =
         ["data"])) := by
  constructor
  · intro h
    have hd := (detect_histC_iff t).mpr h
    rw [anomalyEx_process, if_pos hd]
    exact ⟨rfl, rfl⟩
  · intro h
    have hd : detectAnomaly t histC (.fin 100) = false := by
      cases hb : detectAnomaly t histC (.fin 100)
      · rfl
      · exact absurd ((detect_histC_iff t).mp hb) (not_lt.mpr h)
    rw [anomalyEx_process, if_neg (by simp [hd])]
    exact ⟨rfl, rfl⟩

/-- C2, witness: at the concrete threshold 3, which is below the square root
of ten, the anomaly fires. -/
theorem C2_witness :
    (3 : ℝ) < Real.sqrt 10 ∧
    (((anomalyEx 3).process (some (.point dp100))).2.1.anomalyCount = 1 ∧
     (((anomalyEx 3).process (some (.point dp100))).2.2).map Event.kind =
       ["anomaly", "data"]) := by
  have h3 : (3 : ℝ) < Real.sqrt 10 := by
    nlinarith [Real.sq_sqrt (show (0:ℝ) ≤ 10 by norm_num), Real.sqrt_nonneg 10]
  have h3Q : ((3:ℚ):ℝ) < Real.sqrt 10 := by push_cast; exact h3
  exact ⟨h3, (C2_amended 3).1 h3Q⟩

/-- C5: push raises the NOT_RUNNING StreamProcessorError exactly when the
running flag is false: a push on a stopped pipeline fails with that error and
touches no stage, a push after start succeeds, and a push after a subsequent
stop fails again with the same error. -/
theorem C5_state_gate (p : DataStreamPipeline) (x : Option Item) :
    (p.isRunning = false → p.push x = .error notRunningError) ∧
    (p.isRunning = true → p.push x = .ok (pushRun p x)) ∧
    (p.start.1.push x = .ok (pushRun p.start.1 x)) ∧
    (p.start.1.stop.1.push x = .error notRunningError) ∧
    notRunningError.code = "NOT_RUNNING" := by
  refine ⟨fun h => ?_, fun h => ?_, ?_, ?_, rfl⟩
  · simp [DataStreamPipeline.push, h]
  · simp [DataStreamPipeline.push, h]
  · simp [DataStreamPipeline.push, DataStreamPipeline.start]
  · simp [DataStreamPipeline.push, DataStreamPipeline.start, DataStreamPipeline.stop]

/-- C5, witness: the state gate on a concrete stopped pipeline. -/
theorem C5_witness :
    pipeW.isRunning = false ∧
    pipeW.push (some obsA) = .error notRunningError ∧
    pipeW.start.1.push (some obsA) = .ok (pushRun pipeW.start.1 (some obsA)) ∧
    pipeW.start.1.stop.1.push (some obsA) = .error notRunningError :=
  ⟨rfl, (C5_state_gate pipeW (some obsA)).1 rfl,
   (C5_state_gate pipeW (some obsA)).2.2.1,
   (C5_state_gate pipeW (some obsA)).2.2.2.1⟩

/-- C10: start and stop only toggle the running flag and publish their
events: the stage list, and with it every counter, window and history buffer
and the whole stats snapshot, is untouched, so state accumulated before a
stop persists across a restart. -/
theorem C10_restart_frame (p : DataStreamPipeline) :
    p.start = ({ p with isRunning := true }, [⟨"start", .empty⟩]) ∧
    p.stop = ({ p with isRunning := false }, [⟨"stop", .empty⟩]) ∧
    p.stop.1.processors = p.processors ∧
    p.stop.1.getStats = p.getStats ∧
    p.stop.1.start.1.processors = p.processors ∧
    p.stop.1.start.1.getStats = p.getStats :=
  ⟨rfl, rfl, rfl, rfl, rfl, rfl⟩

/-- C3: no stage propagates a failure of its internal logic: a faulting
predicate, transformer or statistics computation makes process increment the
errors counter by exactly one, publish the error event carrying the error,
the observation and the stage name, and return null; and a pipeline whose
single Transform stage always faults completes every push normally, with the
error count rising by one per push. -/
theorem C3_error_isolation :
    (∀ (st : FilterProcessor) (x : Option Item) (e : JSError),
        st.predicate x = .error e →
        st.process x =
          (none,
           { st with processedCount := st.processedCount + 1,
                     errorCount := st.errorCount + 1 },
           [⟨"error", .errRec e x st.name⟩])) ∧
    (∀ (st : TransformProcessor) (x : Option Item) (e : JSError),
        st.transformer x = .error e →
        st.process x =
          (none,
           { st with processedCount := st.processedCount + 1,
                     errorCount := st.errorCount + 1 },
           [⟨"error", .errRec e x st.name⟩])) ∧
    (∀ (st : AggregationProcessor) (x : Option Item) (e : JSError),
        calculateStats (nextWindow st x) = .error e →
        st.process x =
          (none,
           { st with processedCount := st.processedCount + 1,
                     errorCount := st.errorCount + 1,
                     window := nextWindow st x },
           [⟨"error", .errRec e x st.name⟩])) ∧
    (∀ (tr : TransformProcessor) (errf : Option Item → JSError) (i1 i2 : Item),
        (∀ z, tr.transformer z = .error (errf z)) →
        (DataStreamPipeline.push ⟨[.transform tr], true⟩ (some i1) =
          .ok ⟨none,
               ⟨[.transform { tr with processedCount := tr.processedCount + 1,
                                      errorCount := tr.errorCount + 1 }], true⟩,
               [⟨"error", .errRec (errf (some i1)) (some i1) tr.name⟩],
               [⟨"processorError", .errRec (errf (some i1)) (some i1) tr.name⟩,
                ⟨"processed", .item none⟩]⟩ ∧
         DataStreamPipeline.push
             ⟨[.transform { tr with processedCount := tr.processedCount + 1,
                                    errorCount := tr.errorCount + 1 }], true⟩
             (some i2) =
          .ok ⟨none,
               ⟨[.transform { tr with processedCount := tr.processedCount + 1 + 1,
                                      errorCount := tr.errorCount + 1 + 1 }], true⟩,
               [⟨"error", .errRec (errf (some i2)) (some i2) tr.name⟩],
               [⟨"processorError", .errRec (errf (some i2)) (some i2) tr.name⟩,
                ⟨"processed", .item none⟩]⟩)) := by
  refine ⟨fun st x e h => ?_, fun st x e h => ?_, fun st x e h => ?_,
    fun tr errf i1 i2 hf => ⟨?_, ?_⟩⟩
  · simp [FilterProcessor.process, h]
  · simp [TransformProcessor.process, h]
  · simp [AggregationProcessor.process, h]
  · simp [DataStreamPipeline.push, pushRun, runChain, Stage.process,
      TransformProcessor.process, hf, bubbleEvent]
  · simp [DataStreamPipeline.push, pushRun, runChain, Stage.process,
      TransformProcessor.process, hf, bubbleEvent]

/-- C3, witness: a concrete push through an always-faulting transform stage
returns ok with one error counted and the error bubbled. -/
theorem C3_witness :
    failTransform.transformer (some obsA) = .error boomError ∧
    DataStreamPipeline.push ⟨[.transform failTransform], true⟩ (some obsA) =
      .ok ⟨none,
           ⟨[.transform { failTransform with
                            processedCount := failTransform.processedCount + 1,
                            errorCount := failTransform.errorCount + 1 }], true⟩,
           [⟨"error", .errRec boomError (some obsA) failTransform.name⟩],
           [⟨"processorError", .errRec boomError (some obsA) failTransform.name⟩,
            ⟨"processed", .item none⟩]⟩ :=
  ⟨rfl, (C3_error_isolation.2.2.2 failTransform (fun _ => boomError) obsA obsB
    (fun _ => rfl)).1⟩

/-- C4, counterexample: the error event of a faulting stage is re-published
by the pipeline under the kind processorError, not under its own kind error:
the bubbled stream contains no event of kind error.  This refutes the claim
that every bubbled event keeps its kind. -/
theorem C4_counterexample :
    pushStageEvents ⟨[.transform failTransform], true⟩ (some obsA) =
      [⟨"error", plEx4⟩] ∧
    Event.mk "error" plEx4 ∉
      pushPipelineEvents ⟨[.transform failTransform], true⟩ (some obsA) ∧
    Event.mk "processorError" plEx4 ∈
      pushPipelineEvents ⟨[.transform failTransform], true⟩ (some obsA) := by
  refine ⟨?_, ?_, ?_⟩ <;>
    simp [pushStageEvents, pushPipelineEvents, DataStreamPipeline.push, pushRun,
      runChain, Stage.process, TransformProcessor.process, failTransform,
      bubbleEvent, plEx4, boomError, obsA]

/-- C4, amended: anomaly, trend and aggregation events bubble to the pipeline
emitter under their own kind with the payload unchanged; error events bubble
with the payload unchanged but under the kind processorError; and the
pipeline events of a successful push are exactly the bubbled stage events
followed by the processed event. -/
theorem C4_amended :
    (∀ pl : Payload, bubbleEvent ⟨"anomaly", pl⟩ = some ⟨"anomaly", pl⟩) ∧
    (∀ pl : Payload, bubbleEvent ⟨"trend", pl⟩ = some ⟨"trend", pl⟩) ∧
    (∀ pl : Payload, bubbleEvent ⟨"aggregation", pl⟩ = some ⟨"aggregation", pl⟩) ∧
    (∀ pl : Payload, bubbleEvent ⟨"error", pl⟩ = some ⟨"processorError", pl⟩) ∧
    (∀ (p : DataStreamPipeline) (x : Option Item) (o : PushOut),
        p.push x = .ok o →
        o.pipelineEvents =
          o.stageEvents.filterMap bubbleEvent ++ [⟨"processed", .item o.result⟩]) := by
  refine ⟨fun pl => by simp [bubbleEvent], fun pl => by simp [bubbleEvent],
    fun pl => by simp [bubbleEvent], fun pl => by simp [bubbleEvent], ?_⟩
  intro p x o h
  by_cases hr : p.isRunning = false
  · simp [DataStreamPipeline.push, hr] at h
  · have h2 : o = pushRun p x := by
      simp [DataStreamPipeline.push, hr] at h
      exact h.symm
    subst h2
    rcases hrc : runChain x p.processors with ⟨r, ss, evs⟩
    simp [pushRun, hrc]

/-- C4, witness: the pipeline-event equation at a concrete successful push. -/
theorem C4_witness :
    DataStreamPipeline.push ⟨[], true⟩ none = .ok (pushRun ⟨[], true⟩ none) ∧
    (pushRun ⟨[], true⟩ none).pipelineEvents =
      (pushRun ⟨[], true⟩ none).stageEvents.filterMap bubbleEvent ++
        [⟨"processed", .item (pushRun ⟨[], true⟩ none).result⟩] :=
  ⟨rfl, C4_amended.2.2.2.2 ⟨[], true⟩ none _ rfl⟩

lemma runChain_none (ss : List Stage) : runChain none ss = (none, ss, []) := by
  cases ss <;> rfl

lemma runChain_append (ss1 ss2 : List Stage) (cur : Option Item) :
    runChain cur (ss1 ++ ss2) =
      ((runChain (runChain cur ss1).1 ss2).1,
       (runChain cur ss1).2.1 ++ (runChain (runChain cur ss1).1 ss2).2.1,
       (runChain cur ss1).2.2 ++ (runChain (runChain cur ss1).1 ss2).2.2) := by
  induction ss1 generalizing cur with
  | nil => simp [runChain]
  | cons q ss1 ih =>
      cases cur with
      | none => simp [runChain_none]
      | some x =>
          rcases hq : q.process (some x) with ⟨r1, q2, e1⟩
          rcases hrc : runChain r1 ss1 with ⟨rr, rrest, revs⟩
          rcases hrc2 : runChain rr ss2 with ⟨rr2, rrest2, revs2⟩
          have := ih r1
          rw [hrc] at this
          simp only [List.cons_append, runChain, hq]
          simp [this, hrc, hrc2]

/-- C9: once a stage returns null during a push, every stage after it in
registration order is skipped: it keeps exactly its previous state (counters
and buffers untouched) and contributes no event; the push returns null with
only the events emitted up to and including the dropping stage. -/
theorem C9_short_circuit (pre post : List Stage) (s s2 : Stage) (x y : Item)
    (pre2 : List Stage) (evs1 evs2 : List Event)
    (h1 : runChain (some x) pre = (some y, pre2, evs1))
    (h2 : s.process (some y) = (none, s2, evs2)) :
    runChain (some x) (pre ++ s :: post) =
      (none, pre2 ++ s2 :: post, evs1 ++ evs2) ∧
    (∀ p : DataStreamPipeline, p.isRunning = true →
       p.processors = pre ++ s :: post →
       p.push (some x) =
         .ok ⟨none, ⟨pre2 ++ s2 :: post, true⟩, evs1 ++ evs2,
              (evs1 ++ evs2).filterMap bubbleEvent ++ [⟨"processed", .item none⟩]⟩) := by
  have hs : runChain (some y) (s :: post) = (none, s2 :: post, evs2) := by
    simp [runChain, h2, runChain_none]
  have main : runChain (some x) (pre ++ s :: post) =
      (none, pre2 ++ s2 :: post, evs1 ++ evs2) := by
    rw [runChain_append pre (s :: post) (some x), h1]
    simp [hs]
  refine ⟨main, fun p hrun hproc => ?_⟩
  obtain ⟨ps, pr⟩ := p
  simp only at hrun hproc
  subst hrun hproc
  simp [DataStreamPipeline.push, pushRun, main, bubbleEvent]

/-- C9, witness: a rejecting filter stage stops the chain, and the anomaly
stage after it is returned untouched with no event. -/
theorem C9_witness :
    runChain (some obsW)
        ([] ++ Stage.filter rejectFilter :: [Stage.anomaly anomalyW]) =
      (none,
       [] ++ Stage.filter { rejectFilter with processedCount := 1,
                                              filteredCount := 1 } ::
         [Stage.anomaly anomalyW],
       [] ++ [⟨"filtered", .item (some obsW)⟩]) :=
  (C9_short_circuit [] [Stage.anomaly anomalyW] (Stage.filter rejectFilter)
    (Stage.filter { rejectFilter with processedCount := 1, filteredCount := 1 })
    obsW obsW [] [] [⟨"filtered", .item (some obsW)⟩] rfl rfl).1

lemma mapValues_error_of_mem (w : List (Option Item)) (hw : none ∈ w) :
    mapValues w = .error nullValueError := by
  induction w with
  | nil => cases hw
  | cons a r ih =>
      cases a with
      | none => rfl
      | some i =>
          have hr : none ∈ r := by simpa using hw
          cases i <;>
            simp [mapValues, itemValue, ih hr, Except.instMonad, Bind.bind,
              Except.bind]

lemma calculateStats_error (w : List (Option Item)) (hw : none ∈ w) :
    calculateStats w = .error nullValueError := by
  simp [calculateStats, mapValues_error_of_mem w hw, Except.instMonad, Bind.bind,
    Except.bind]

lemma none_mem_nextWindow (st : AggregationProcessor) (h : 0 < st.windowSize) :
    none ∈ nextWindow st none := by
  unfold nextWindow
  dsimp only
  split
  case isTrue h1 =>
      cases hw : st.window with
      | nil => rw [hw] at h1; simp at h1; omega
      | cons a r => simp
  case isFalse h1 => simp

/-- C8, counterexample: the validity filter of main applied to a null input
does attempt its work: the predicate is applied to null, its TypeError is
caught, the errors counter becomes one and an error event is published.
This refutes the claim that a null input returns immediately with no
predicate application, no error event and no errors increment. -/
theorem C8_counterexample :
    (validFilter.process none).2.1.errorCount = 1 ∧
    (validFilter.process none).2.2.map Event.kind = ["error"] := by
  simp [FilterProcessor.process, validFilter, validPredicate]

/-- C8, amended: there is no null guard in process; the processed counter is
incremented and the stage logic is applied to the null input like any other.
For the stages whose logic dereferences the observation (anomaly, trend,
aggregation with a nonempty capacity) the dereference faults: errors is
incremented, an error event published, null returned (and the aggregation
window keeps the null that was pushed).  A filter returns null on every
predicate outcome, and a transform returns whatever its function yields, in
both cases after counting the attempt. -/
theorem C8_amended :
    (∀ st : AnomalyDetector, st.process none =
       (none, { st with processedCount := st.processedCount + 1,
                        errorCount := st.errorCount + 1 },
        [⟨"error", .errRec nullValueError none st.name⟩])) ∧
    (∀ st : TrendAnalyzer, st.process none =
       (none, { st with processedCount := st.processedCount + 1,
                        errorCount := st.errorCount + 1 },
        [⟨"error", .errRec nullValueError none st.name⟩])) ∧
    (∀ st : AggregationProcessor, 0 < st.windowSize →
       st.process none =
       (none, { st with processedCount := st.processedCount + 1,
                        errorCount := st.errorCount + 1,
                        window := nextWindow st none },
        [⟨"error", .errRec nullValueError none st.name⟩])) ∧
    (∀ st : FilterProcessor, (st.process none).1 = none ∧
       (st.process none).2.1.processedCount = st.processedCount + 1) ∧
    (∀ st : TransformProcessor,
       (st.process none).2.1.processedCount = st.processedCount + 1) := by
  refine ⟨fun st => by simp [AnomalyDetector.process],
    fun st => by simp [TrendAnalyzer.process],
    fun st h => by simp [AggregationProcessor.process,
      calculateStats_error _ (none_mem_nextWindow st h)],
    fun st => ?_, fun st => ?_⟩
  · rcases hp : st.predicate none with e | b
    · simp [FilterProcessor.process, hp]
    · cases b <;> simp [FilterProcessor.process, hp]
  · rcases ht : st.transformer none with e | r <;>
      simp [TransformProcessor.process, ht]

/-- C8, witness: a fresh aggregation stage processed on null keeps the null
in its window and takes the error path. -/
theorem C8_witness :
    0 < aggW.windowSize ∧
    aggW.process none =
      (none, { aggW with processedCount := aggW.processedCount + 1,
                         errorCount := aggW.errorCount + 1,
                         window := nextWindow aggW none },
       [⟨"error", .errRec nullValueError none aggW.name⟩]) :=
  ⟨by norm_num [aggW], C8_amended.2.2.1 aggW (by norm_num [aggW])⟩

lemma foldl_jsAdd_map_fin (l : List ℚ) (a : ℚ) :
    (l.map JSNum.fin).foldl jsAdd (.fin a) = .fin (a + l.sum) := by
  induction l generalizing a with
  | nil => simp
  | cons q r ih => simp [ih, add_assoc]

lemma getLastD_map_fin (l : List ℚ) (h : l ≠ []) :
    (l.map JSNum.fin).getLastD .nan = .fin (l.getLastD 0) := by
  rcases List.exists_cons_of_ne_nil h with ⟨a, t, rfl⟩
  rw [List.getLastD_eq_getLast?, List.getLastD_eq_getLast?, List.getLast?_map]
  cases hl : (a :: t).getLast? with
  | none => simp at hl
  | some b => simp

/-- The direction computed by analyzeTrend over a buffer of finite values
with a nonzero moving average: stable exactly when the toFixed(2)-rounded
percent difference is at most five in magnitude, otherwise by the sign of
the difference. -/
lemma analyzeTrend_map_fin (vs : List ℚ) (h5 : 5 ≤ vs.length)
    (hm : vs.sum / (vs.length : ℚ) ≠ 0) :
    (analyzeTrend (vs.map JSNum.fin)).direction =
      if |round2 ((vs.getLastD 0 - vs.sum / (vs.length : ℚ)) /
            (vs.sum / (vs.length : ℚ)) * 100)| ≤ 5
      then "stable"
      else if 0 < vs.getLastD 0 - vs.sum / (vs.length : ℚ)
      then "upward" else "downward" := by
  have hne : vs ≠ [] := by
    intro hh
    rw [hh] at h5
    simp at h5
  have hlen : ((vs.length : ℕ) : ℚ) ≠ 0 := by
    have h0 : vs.length ≠ 0 := fun hh => hne (List.length_eq_zero.mp hh)
    exact_mod_cast h0
  simp only [analyzeTrend]
  rw [foldl_jsAdd_map_fin, getLastD_map_fin vs hne, List.length_map]
  simp only [zero_add]
  rw [jsDiv_fin _ hlen]
  simp only [jsSub_fin]
  rw [jsDiv_fin _ hm]
  simp only [jsMul_fin, jsToFixed2, jsAbs_fin, jsGt_fin]
  simp only [List.getLastD_eq_getLast?]
  by_cases hc : |round2 ((vs.getLast?.getD 0 - vs.sum / (vs.length : ℚ)) /
      (vs.sum / (vs.length : ℚ)) * 100)| ≤ 5
  · simp [hc, not_lt.mpr hc]
  · have hlt := not_le.mp hc
    by_cases hd : 0 < vs.getLast?.getD 0 - vs.sum / (vs.length : ℚ) <;>
      simp [hc, hlt, hd, sub_pos]

/-- C6, counterexample: with a five-value buffer of moving average 1000 and
latest value 1050.04, the raw percent difference 5.004 exceeds five, yet the
published direction is stable, because the comparison reads the percent back
after toFixed(2) rounded it to 5.00.  This refutes the claim that the
direction follows the raw percent difference. -/
theorem C6_counterexample :
    (trendEx6.process (some (.point dpTrend))).2.2 =
      [⟨"trend", .trendRec (analyzeTrend trendVals6)⟩,
       ⟨"data", .item (some (.point dpTrend))⟩] ∧
    (analyzeTrend trendVals6).direction = "stable" ∧
    ¬ (|((105004/100 : ℚ) - 1000) / 1000 * 100| ≤ 5) := by
  refine ⟨?_, ?_, by norm_num [abs_le]⟩
  · simp [TrendAnalyzer.process, trendEx6, dpTrend, Item.valueJS, nextValues,
      trendVals6]
  · rw [show trendVals6 =
        ([98749/100, 98749/100, 98749/100, 98749/100, 105004/100] : List ℚ).map
          JSNum.fin from rfl]
    rw [analyzeTrend_map_fin _ (by norm_num) (by norm_num [List.sum_cons])]
    norm_num [round2, List.sum_cons, List.getLastD_eq_getLast?]

/-- C6, amended: whenever the buffer holds at least five values (and the
moving average is nonzero, so the percent difference is a finite number),
the published direction is stable exactly when the percent difference as
rounded by toFixed(2) is at most five in magnitude, otherwise upward for a
positive difference and downward for a negative one; and a process call that
reaches a five-value buffer publishes exactly that trend record. -/
theorem C6_amended :
    (∀ vs : List ℚ, 5 ≤ vs.length → vs.sum / (vs.length : ℚ) ≠ 0 →
       (analyzeTrend (vs.map JSNum.fin)).direction =
         if |round2 ((vs.getLastD 0 - vs.sum / (vs.length : ℚ)) /
               (vs.sum / (vs.length : ℚ)) * 100)| ≤ 5
         then "stable"
         else if 0 < vs.getLastD 0 - vs.sum / (vs.length : ℚ)
         then "upward" else "downward") ∧
    (∀ (st : TrendAnalyzer) (it : Item), 5 ≤ (nextValues st it.valueJS).length →
       st.process (some it) =
         (some it,
          { st with processedCount := st.processedCount + 1,
                    values := nextValues st it.valueJS },
          [⟨"trend", .trendRec (analyzeTrend (nextValues st it.valueJS))⟩,
           ⟨"data", .item (some it)⟩])) := by
  refine ⟨fun vs h5 hm => analyzeTrend_map_fin vs h5 hm, fun st it h => ?_⟩
  simp [TrendAnalyzer.process, h]

/-- C6, witness: the boundary example with moving average 100 and latest 104
comes out stable. -/
theorem C6_witness :
    5 ≤ ([99, 99, 99, 99, 104] : List ℚ).length ∧
    ([99, 99, 99, 99, 104] : List ℚ).sum /
        ((([99, 99, 99, 99, 104] : List ℚ).length : ℕ) : ℚ) ≠ 0 ∧
    (analyzeTrend (([99, 99, 99, 99, 104] : List ℚ).map JSNum.fin)).direction =
      "stable" := by
  refine ⟨by norm_num, by norm_num [List.sum_cons], ?_⟩
  rw [C6_amended.1 [99, 99, 99, 99, 104] (by norm_num) (by norm_num [List.sum_cons])]
  norm_num [round2, List.sum_cons, List.getLastD_eq_getLast?]

/-- C7, counterexample: at one anomaly out of three processed the stats
snapshot carries the string 33.33 percent, not the raw numeric ratio 100/3.
This refutes the claim that anomalyRate is the raw ratio. -/
theorem C7_counterexample :
    anomalyEx7.getStats.anomalyRate = some (.str "33.33%") ∧
    JSVal.str "33.33%" ≠ JSVal.num (.fin (100/3)) := by
  refine ⟨?_, by simp⟩
  simp only [AnomalyDetector.getStats, anomalyEx7]
  rw [jsDiv_fin _ (by norm_num)]
  rw [show jsMul (.fin (((1:ℕ):ℚ) / ((3:ℕ):ℚ))) (.fin 100) = .fin (100/3) by
    simp; norm_num]
  simp only [jsToFixed2Str]
  rw [show (⌊(100:ℚ) * (100/3) + 1/2⌋ : ℤ) = 3333 by norm_num]
  norm_num [pad2]
  rfl

/-- C7, amended: the stats snapshot carries the anomalies count, and
anomalyRate is the presentation string obtained by formatting the raw ratio
anomalies over processed times one hundred with toFixed(2) and a percent
sign, whenever at least one observation was processed. -/
theorem C7_amended (st : AnomalyDetector) (h : 0 < st.processedCount) :
    st.getStats.anomalies = some st.anomalyCount ∧
    st.getStats.anomalyRate =
      some (.str (jsToFixed2Str
        (.fin ((st.anomalyCount : ℚ) / (st.processedCount : ℚ) * 100)) ++ "%")) := by
  have hq : ((st.processedCount : ℕ) : ℚ) ≠ 0 := by
    exact_mod_cast h.ne'
  refine ⟨rfl, ?_⟩
  simp only [AnomalyDetector.getStats]
  rw [jsDiv_fin _ hq]
  simp

/-- C7, witness: the amended statement at the concrete snapshot with one
anomaly out of three processed. -/
theorem C7_witness :
    0 < anomalyEx7.processedCount ∧
    anomalyEx7.getStats.anomalyRate =
      some (.str (jsToFixed2Str
        (.fin ((anomalyEx7.anomalyCount : ℚ) / (anomalyEx7.processedCount : ℚ) * 100))
          ++ "%")) :=
  ⟨by norm_num [anomalyEx7], (C7_amended anomalyEx7 (by norm_num [anomalyEx7])).2⟩

end StreamProc
